import Mathlib

/-!
Shallow embedding of the `pdf-memory-spike` repository:

* `src/sidecar/app.py`         — FastAPI scoring sidecar (`/predict`, model load)
* `src/tools/pdf_features_py.py` — PDF → feature-JSON extractor
* `src/training/memory_spike_train.py` — training CLI (synthesize/load data,
  train/test split, metrics, artifact writes)

Machine floats are modelled by `ℚ`.  The third-party numeric stack
(scikit-learn fit/predict, numpy samplers, transcendental functions,
`rng.permutation`, pickling) is abstracted by explicit function parameters;
all glue logic written in this repository is translated directly from the
source.
-/

/-! ### Python / numpy numeric helpers -/

/-- Python's and numpy's `round` to an integer: round half to even
(banker's rounding).  `round(2.5) = 2`, `round(3.5) = 4`, `round(-2.5) = -2`. -/
def pyRound (q : ℚ) : ℤ :=
  let f := ⌊q⌋
  let r := q - (f : ℚ)
  if r < 1/2 then f
  else if 1/2 < r then f + 1
  else if f % 2 = 0 then f else f + 1

/-- Python's `round(x, d)` / numpy's `np.round(x, d)` with `k = 10 ^ d`:
scale, round half to even, unscale. -/
def roundTo (k : ℕ) (q : ℚ) : ℚ := ((pyRound ((k : ℚ) * q) : ℚ)) / (k : ℚ)

/-- numpy's `np.clip(x, lo, hi)`. -/
def npClip {A : Type} [LinearOrder A] (x lo hi : A) : A := min (max x lo) hi

/-- numpy's `np.clip(x, lo, None)` (lower bound only). -/
def npClipLo {A : Type} [LinearOrder A] (x lo : A) : A := max x lo

theorem pyRound_ge_floor (q : ℚ) : ⌊q⌋ ≤ pyRound q := by
  unfold pyRound
  dsimp only
  split
  · exact le_refl _
  · split
    · exact le_of_lt (lt_add_one _)
    · split
      · exact le_refl _
      · exact le_of_lt (lt_add_one _)

theorem pyRound_le_ceil (q : ℚ) : pyRound q ≤ ⌈q⌉ := by
  unfold pyRound
  dsimp only
  by_cases h : q - (⌊q⌋ : ℚ) < 1/2
  · simp only [h, if_true]
    exact Int.floor_le_ceil q
  · have hfl : (⌊q⌋ : ℚ) < q := by
      have h0 : (0 : ℚ) < 1/2 := by norm_num
      have : (1/2 : ℚ) ≤ q - (⌊q⌋ : ℚ) := le_of_not_lt h
      linarith
    have hlt : ⌊q⌋ < ⌈q⌉ := Int.lt_ceil.mpr hfl
    have hle : ⌊q⌋ + 1 ≤ ⌈q⌉ := hlt
    simp only [h, if_false]
    split
    · exact hle
    · split
      · exact le_trans (le_of_lt (lt_add_one _)) hle
      · exact hle

theorem pyRound_bounds (a b : ℤ) (q : ℚ) (ha : (a : ℚ) ≤ q) (hb : q ≤ (b : ℚ)) :
    a ≤ pyRound q ∧ pyRound q ≤ b :=
  ⟨le_trans (Int.le_floor.mpr ha) (pyRound_ge_floor q),
   le_trans (pyRound_le_ceil q) (Int.ceil_le.mpr hb)⟩

/-- Rounding to a fixed number of decimals keeps a value inside integer
bounds that already lie on the decimal grid. -/
theorem roundTo_bounds (k : ℕ) (hk : 0 < k) (a b : ℤ) (q : ℚ)
    (ha : (a : ℚ) ≤ q) (hb : q ≤ (b : ℚ)) :
    (a : ℚ) ≤ roundTo k q ∧ roundTo k q ≤ (b : ℚ) := by
  have hkq : (0 : ℚ) < (k : ℚ) := by exact_mod_cast hk
  have h1 : (((k : ℤ) * a : ℤ) : ℚ) ≤ (k : ℚ) * q := by
    push_cast
    exact mul_le_mul_of_nonneg_left ha (le_of_lt hkq)
  have h2 : (k : ℚ) * q ≤ (((k : ℤ) * b : ℤ) : ℚ) := by
    push_cast
    exact mul_le_mul_of_nonneg_left hb (le_of_lt hkq)
  obtain ⟨hlo, hhi⟩ := pyRound_bounds ((k : ℤ) * a) ((k : ℤ) * b) ((k : ℚ) * q) h1 h2
  constructor
  · rw [roundTo, le_div_iff₀ hkq]
    have hq : (((k : ℤ) * a : ℤ) : ℚ) ≤ (pyRound ((k : ℚ) * q) : ℚ) := by exact_mod_cast hlo
    calc (a : ℚ) * (k : ℚ) = (((k : ℤ) * a : ℤ) : ℚ) := by push_cast; ring
    _ ≤ _ := hq
  · rw [roundTo, div_le_iff₀ hkq]
    have hq : (pyRound ((k : ℚ) * q) : ℚ) ≤ (((k : ℤ) * b : ℤ) : ℚ) := by exact_mod_cast hhi
    calc (pyRound ((k : ℚ) * q) : ℚ) ≤ (((k : ℤ) * b : ℤ) : ℚ) := hq
    _ = (b : ℚ) * (k : ℚ) := by push_cast; ring

theorem npClip_bounds {A : Type} [LinearOrder A] (x lo hi : A) (h : lo ≤ hi) :
    lo ≤ npClip x lo hi ∧ npClip x lo hi ≤ hi := by
  constructor
  · exact le_min (le_max_right x lo) h
  · exact min_le_right _ _

/-! ### Python truthiness helpers (`x or default`) -/

/-- Python `x or d` for `x : Optional[float]`: `None` and `0.0` are falsy. -/
def pyOrQ (x : Option ℚ) (d : ℚ) : ℚ :=
  match x with
  | none => d
  | some t => if t = 0 then d else t

/-- Python `x or d` for `x : Optional[str]`: `None` and `""` are falsy. -/
def pyOrStr (x : Option String) (d : String) : String :=
  match x with
  | none => d
  | some s => if s = "" then d else s

/-- Python truthiness of an `Optional[str]` (used for `INCLUDE_MODEL_HASH and MODEL_HASH`). -/
def pyTruthyOptStr (x : Option String) : Bool :=
  match x with
  | none => false
  | some s => s != ""

/-! ### `src/sidecar/app.py` — data model -/

/-- The nine-field pydantic request model `PdfFeatures` of `src/sidecar/app.py`. -/
structure PdfFeatures where
  size_mb : ℚ
  pages : ℤ
  image_page_ratio : ℚ
  dpi_estimate : ℤ
  avg_image_size_kb : ℚ
  fonts_embedded_pct : ℚ
  xref_error_count : ℤ
  ocr_required : ℤ
  producer : String
deriving DecidableEq

/-- Field names of `PdfFeatures`, in declaration order (transcribed from the
class body of `src/sidecar/app.py`). -/
def pdfFeaturesFieldNames : List String :=
  ["size_mb", "pages", "image_page_ratio", "dpi_estimate", "avg_image_size_kb",
   "fonts_embedded_pct", "xref_error_count", "ocr_required", "producer"]

/-- The request envelope `ScoreRequest`: features plus the optional threshold
override `big_mem_threshold_mb` (default `None`). -/
structure ScoreRequest where
  features : PdfFeatures
  big_mem_threshold_mb : Option ℚ
deriving DecidableEq

/-- The JSON object returned by `POST /predict`.  `model_hash` is the optional
key added only when `INCLUDE_MODEL_HASH` is set and a hash is available. -/
structure PredictResponse where
  predicted_peak_mb : ℚ
  decision : String
  threshold_mb : ℚ
  model_hash : Option String
deriving DecidableEq

/-- The `/predict` handler of `src/sidecar/app.py`.

* `model` abstracts `pipe.predict` on a one-row frame built from the features
  (`float(pipe.predict(df)[0])`);
* `defaultThr` is the env constant `DEFAULT_THRESHOLD_MB`;
* `includeHash` / `modelHash` are the module constants `INCLUDE_MODEL_HASH`
  and `MODEL_HASH`.

Source logic:
`thr = req.big_mem_threshold_mb or DEFAULT_THRESHOLD_MB`,
`decision = "ROUTE_BIG_MEMORY" if y >= thr else "STANDARD_PATH"`. -/
def predict (model : PdfFeatures → ℚ) (defaultThr : ℚ)
    (includeHash : Bool) (modelHash : Option String)
    (req : ScoreRequest) : PredictResponse :=
  let y := model req.features
  let thr := pyOrQ req.big_mem_threshold_mb defaultThr
  let decision := if y ≥ thr then "ROUTE_BIG_MEMORY" else "STANDARD_PATH"
  { predicted_peak_mb := y
    decision := decision
    threshold_mb := thr
    model_hash := if includeHash && pyTruthyOptStr modelHash then modelHash else none }

/-! ### `src/sidecar/app.py` — model loading at startup -/

/-- Module-level service state built at import time (only the part the claims
need: the loaded pipeline object `pipe`). -/
structure ServiceState (M : Type) where
  pipe : M

/-- `_load_pipe(path)` of `src/sidecar/app.py`.

The filesystem is abstracted by `fs : String → Option C` (`fs path = none`
iff opening the file raises `FileNotFoundError`); `unpickle` abstracts
`pickle.load` on the file content.  The `FileNotFoundError` re-raised with
the operator-facing message is modelled as `Except.error` carrying that
message. -/
def loadPipe {M C : Type} (unpickle : C → M) (fs : String → Option C)
    (path : String) : Except String M :=
  match fs path with
  | some c => Except.ok (unpickle c)
  | none => Except.error
      ("Model not found at \x27" ++ path ++
       "\x27. Train to sidecar/models/ or set PIPELINE_PATH to an absolute file path.")

/-- The module-load sequence `pipe = _load_pipe(PIPELINE_PATH)`: the service
process (and hence the `/predict` route) only comes up when loading
succeeded; a raise at import time propagates and the app never starts. -/
def startService {M C : Type} (unpickle : C → M) (fs : String → Option C)
    (path : String) : Except String (ServiceState M) :=
  match loadPipe unpickle fs path with
  | Except.ok p => Except.ok ⟨p⟩
  | Except.error e => Except.error e

/-! ### `src/tools/pdf_features_py.py` — feature extractor -/

/-- A JSON scalar as emitted by the extractor (numbers modelled by `ℚ`). -/
inductive JVal where
  | num : ℚ → JVal
  | str : String → JVal
deriving DecidableEq

/-- The part of a `PyPDF2.PdfReader` the extractor touches: the page list
length and the document information dictionary (`reader.metadata`), which is
`None` when the document has no metadata and otherwise a key/value
dictionary whose Python truthiness is non-emptiness. -/
structure PdfDocument where
  pages : ℕ
  metadata : Option (List (String × String))

/-- `reader.metadata.producer`: lookup of the producer entry in the info
dictionary, `none` when absent. -/
def metaProducer (m : List (String × String)) : Option String :=
  m.lookup "/Producer"

/-- The `producer` output field:
`(reader.metadata.producer if reader.metadata else "Unknown") or "Unknown"`. -/
def producerOf (md : Option (List (String × String))) : String :=
  pyOrStr
    (match md with
     | some m => if m ≠ [] then metaProducer m else some "Unknown"
     | none => some "Unknown")
    "Unknown"

/-- The single JSON object printed by `src/tools/pdf_features_py.py`, as an
ordered key/value list.  `path` is `sys.argv[1]`, `nbytes` the result of
`os.path.getsize`, `doc` the opened reader. -/
def pdfFeaturesJson (path : String) (nbytes : ℕ) (doc : PdfDocument) :
    List (String × JVal) :=
  [("file", JVal.str path),
   ("size_mb", JVal.num (roundTo 1000 ((nbytes : ℚ) / (1024 * 1024)))),
   ("pages", JVal.num (doc.pages : ℚ)),
   ("image_page_ratio", JVal.num 0),
   ("dpi_estimate", JVal.num 300),
   ("avg_image_size_kb", JVal.num 0),
   ("fonts_embedded_pct", JVal.num (1/2)),
   ("xref_error_count", JVal.num 0),
   ("ocr_required", JVal.num 0),
   ("producer", JVal.str (producerOf doc.metadata))]

/-! ### `src/training/memory_spike_train.py` — synthetic data -/

/-- One row worth of raw numpy RNG draws consumed by `synthesize_data`.

The distribution shapes (lognormal, normal, beta, ...) are irrelevant to the
glue logic and are abstracted to arbitrary values of the sampler's codomain:
`poisson` yields a natural number, `rng.integers(0, 2)` a value of
`Fin 2`, `rng.choice` over the six producers an index of `Fin 6`, and the
real-valued samplers arbitrary rationals (`noiseRaw` is the standard-normal
draw underlying `rng.normal(0, sigma)`, scaled by `sigma` in `synthRow`). -/
structure Draw where
  sizeRaw : ℚ
  pagesRaw : ℚ
  betaRaw : ℚ
  dpiRaw : ℚ
  avgImgRaw : ℚ
  fontsRaw : ℚ
  xrefRaw : ℕ
  ocrRaw : Fin 2
  prodIdx : Fin 6
  noiseRaw : ℚ

/-- Oracles for the transcendental float functions used by the latent-mean
formula and the metrics (`np.log1p`, `x ** 1.7`, `x ** 0.3`, `np.tanh`,
`np.sqrt`).  Their values never matter to the claims proved below. -/
structure NumOracle where
  log1p : ℚ → ℚ
  pow17 : ℚ → ℚ
  pow03 : ℚ → ℚ
  tanh : ℚ → ℚ
  sqrt : ℚ → ℚ

/-- The producer pool passed to `rng.choice` in `synthesize_data`. -/
def producersPool : List String :=
  ["Adobe", "iText", "PDFBox", "Ghostscript", "Unknown", "Scanner"]

/-- The per-producer biases of the `producer_bias` dict, listed in the same
order as `producersPool` (the dict is keyed by exactly those six strings, so
indexing by the choice index is equivalent to `producer_bias.get(producer)`). -/
def producerBiasPool : List ℚ := [-40, -10, 0, 20, 25, 70]

/-- A labelled row of the training frame: the nine features plus the target
column `peak_mem_mb`. -/
structure TrainRow where
  features : PdfFeatures
  peak_mem_mb : ℚ
deriving DecidableEq

/-- One row of `synthesize_data`: clips and transforms of the raw draws, the
latent mean, heteroscedastic noise, final clip to `[150, 12000]`, and the
`np.round` calls of the frame assembly. -/
def synthRow (o : NumOracle) (d : Draw) : TrainRow :=
  let size_mb := d.sizeRaw
  let pages : ℤ := npClip (pyRound d.pagesRaw) 1 1500
  let image_page_ratio := npClip d.betaRaw 0 1
  let dpi_estimate : ℤ := npClip (pyRound d.dpiRaw) 72 600
  let avg_image_size_kb := npClip d.avgImgRaw 20 5000
  let fonts_embedded_pct := npClip d.fontsRaw 0 1
  let xref_error_count := d.xrefRaw
  let ocr_required : ℕ := d.ocrRaw.val
  let producer := producersPool.getD d.prodIdx.val "Unknown"
  let latent :=
    60
    + 22 * o.log1p size_mb
    + (2/25) * (pages : ℚ)
    + 900 * o.pow17 image_page_ratio
    + (3/500) * npClipLo ((dpi_estimate : ℚ) - 150) 0 * o.pow03 (pages : ℚ)
    + (3/100) * avg_image_size_kb
    + 240 * (1 - fonts_embedded_pct)
    + 65 * o.tanh (xref_error_count : ℚ)
    + 120 * (ocr_required : ℚ) * (if image_page_ratio > 1/2 then 1 else 0)
    + producerBiasPool.getD d.prodIdx.val 0
  let noise := d.noiseRaw * (60 + (3/5) * o.sqrt (max latent 1))
  let peak_mem_mb := npClip (latent + noise) 150 12000
  { features :=
      { size_mb := roundTo 1000 size_mb
        pages := pages
        image_page_ratio := roundTo 1000 image_page_ratio
        dpi_estimate := dpi_estimate
        avg_image_size_kb := roundTo 10 avg_image_size_kb
        fonts_embedded_pct := roundTo 1000 fonts_embedded_pct
        xref_error_count := (xref_error_count : ℤ)
        ocr_required := (ocr_required : ℤ)
        producer := producer }
    peak_mem_mb := roundTo 10 peak_mem_mb }

/-- A pandas `DataFrame` of training rows: a column-label list plus the rows
(rows are schema-shaped, matching the documented CSV contract). -/
structure DataFrame where
  columns : List String
  rows : List TrainRow

/-- `synthesize_data(n, seed)`: one output row per raw draw; the column order
is the `dict(...)` order of the frame assembly.  The abstract draw stream
replaces `np.random.default_rng(seed)`. -/
def synthesize_data (o : NumOracle) (draws : List Draw) : DataFrame :=
  { columns :=
      ["size_mb", "pages", "image_page_ratio", "dpi_estimate", "avg_image_size_kb",
       "fonts_embedded_pct", "xref_error_count", "ocr_required", "producer",
       "peak_mem_mb"]
    rows := draws.map (synthRow o) }

/-- `load_data(path, seed)` of `src/training/memory_spike_train.py`:
`if path and os.path.exists(path): return pd.read_csv(path)` else
`synthesize_data(seed=seed)`.  `fs` maps a path to the parsed frame when a
file exists there (`none` = no file); `drawsOf` maps the seed to the raw
draw stream of `np.random.default_rng(seed)`; the empty string is Python-falsy. -/
def load_data (o : NumOracle) (drawsOf : ℕ → List Draw)
    (fs : String → Option DataFrame) (path : Option String) (seed : ℕ) : DataFrame :=
  match path with
  | some p =>
    if p = "" then synthesize_data o (drawsOf seed)
    else
      match fs p with
      | some df => df
      | none => synthesize_data o (drawsOf seed)
  | none => synthesize_data o (drawsOf seed)

/-! ### `src/training/memory_spike_train.py` — train and metrics -/

/-- `np.mean` of a list (empty list handled by total `ℚ` division). -/
def meanQ (l : List ℚ) : ℚ := l.sum / (l.length : ℚ)

/-- `mean_absolute_error(yte, ypred)`. -/
def maeOf (yte ypred : List ℚ) : ℚ :=
  meanQ (List.zipWith (fun a b => |a - b|) yte ypred)

/-- `mean_squared_error(yte, ypred)` (with `squared=True`; the script reports
its square root as `rmse`). -/
def mseOf (yte ypred : List ℚ) : ℚ :=
  meanQ (List.zipWith (fun a b => (a - b) ^ 2) yte ypred)

/-- `r2_score(yte, ypred) = 1 - SS_res / SS_tot`. -/
def r2Of (yte ypred : List ℚ) : ℚ :=
  1 - (List.zipWith (fun a b => (a - b) ^ 2) yte ypred).sum /
      ((yte.map (fun a => (a - meanQ yte) ^ 2)).sum)

/-- `np.mean(np.abs((yte - ypred) / np.maximum(yte, 1e-6))) * 100`. -/
def mapeOf (yte ypred : List ℚ) : ℚ :=
  meanQ (List.zipWith (fun a b => |(a - b) / max a (1/1000000)|) yte ypred) * 100

/-- The `metrics` dict assembled by `train` (keys in source order). -/
structure Metrics where
  mae : ℚ
  rmse : ℚ
  r2 : ℚ
  mape_pct : ℚ
  n_train : ℕ
  n_test : ℕ
  seed : ℕ
deriving DecidableEq

/-- The metrics computed from the holdout target vector and the pipeline's
holdout predictions (plus the split sizes and seed); `sqrtO` abstracts the
float square root inside `mean_squared_error(..., squared=False)`. -/
def holdoutMetrics (sqrtO : ℚ → ℚ) (yte ypred : List ℚ)
    (ntr nte sd : ℕ) : Metrics :=
  { mae := maeOf yte ypred
    rmse := sqrtO (mseOf yte ypred)
    r2 := r2Of yte ypred
    mape_pct := mapeOf yte ypred
    n_train := ntr
    n_test := nte
    seed := sd }

/-- `train(df, seed)` of `src/training/memory_spike_train.py`.

* `fit` abstracts `Pipeline([...]).fit(Xtr, ytr)` (ColumnTransformer +
  GradientBoostingRegressor), consuming the training feature/target pairs;
* `pred` abstracts `pipe.predict` on single feature rows;
* `shuffle` abstracts the `random_state=seed` permutation inside
  `train_test_split`; sklearn takes the test indices from the head of the
  permutation (`n_test = ceil(0.2 * n)`) and the train indices from the rest. -/
def train {M : Type} (fit : List (PdfFeatures × ℚ) → M)
    (pred : M → PdfFeatures → ℚ) (sqrtO : ℚ → ℚ)
    (shuffle : ℕ → List TrainRow → List TrainRow)
    (df : DataFrame) (seed : ℕ) : M × Metrics :=
  let rows := df.rows
  let nTest := (rows.length + 4) / 5
  let shuffled := shuffle seed rows
  let teRows := shuffled.take nTest
  let trRows := shuffled.drop nTest
  let pipe := fit (trRows.map (fun r => (r.features, r.peak_mem_mb)))
  let yte := teRows.map (fun r => r.peak_mem_mb)
  let ypred := teRows.map (fun r => pred pipe r.features)
  (pipe, holdoutMetrics sqrtO yte ypred trRows.length teRows.length seed)

/-- The categorical feature list `cat_features` of `train`. -/
def cat_features : List String := ["producer"]

/-- The numeric feature list `num_features` of `train`. -/
def num_features : List String :=
  ["size_mb", "pages", "image_page_ratio", "dpi_estimate",
   "avg_image_size_kb", "fonts_embedded_pct",
   "xref_error_count", "ocr_required"]

/-! ### `src/training/memory_spike_train.py` — CLI artifacts -/

/-- `model_manifest.json`: creation timestamp, a copy of the metrics dict,
and the feature column labels. -/
structure Manifest where
  created_at : String
  metrics : Metrics
  features : List String
deriving DecidableEq

/-- Content of one file written by `main` to the output directory. -/
inductive Artifact (M : Type) where
  | pipelinePkl : M → Artifact M
  | metricsJson : Metrics → Artifact M
  | manifestJson : Manifest → Artifact M
  | sampleCsv : List TrainRow → Artifact M

/-- The sequence of file writes a successful run of `main()` performs in the
output directory, as (filename, content) pairs in program order.

* `sampler` abstracts `df.sample(min(500, len(df)), random_state=1)`;
* `now` is the `datetime.utcnow().isoformat() + "Z"` timestamp;
* `dataArg` is the `--data` flag, `seed` the `--seed` flag;
* the smoke test re-reads `pipeline.pkl` and predicts on one row, which in
  this total model always succeeds (on failure the run raises and is not a
  successful run). -/
def mainWrites {M : Type} (fit : List (PdfFeatures × ℚ) → M)
    (pred : M → PdfFeatures → ℚ) (sqrtO : ℚ → ℚ)
    (shuffle : ℕ → List TrainRow → List TrainRow)
    (o : NumOracle) (drawsOf : ℕ → List Draw)
    (fs : String → Option DataFrame)
    (sampler : List TrainRow → List TrainRow)
    (now : String) (dataArg : Option String) (seed : ℕ) :
    List (String × Artifact M) :=
  let df := load_data o drawsOf fs dataArg seed
  let pm := train fit pred sqrtO shuffle df seed
  let xcols := df.columns.filter (fun c => c ≠ "peak_mem_mb")
  [("pipeline.pkl", Artifact.pipelinePkl pm.1),
   ("metrics.json", Artifact.metricsJson pm.2),
   ("model_manifest.json", Artifact.manifestJson
      { created_at := now, metrics := pm.2, features := xcols }),
   ("sample_data.csv", Artifact.sampleCsv (sampler df.rows))]

/-! ### Claims -/

/-- The nine-field feature schema named by the spec (file size, page count,
image/page ratio, DPI estimate, average image size, embedded-font fraction,
cross-reference error count, OCR-required flag, producer string). -/
def featureSchemaFields : List String :=
  ["size_mb", "pages", "image_page_ratio", "dpi_estimate", "avg_image_size_kb",
   "fonts_embedded_pct", "xref_error_count", "ocr_required", "producer"]

/-- Claim C1: for every feature record and the threshold actually used for
the decision, `/predict` returns decision `ROUTE_BIG_MEMORY` exactly when
the model's scalar is `≥` that threshold and `STANDARD_PATH` otherwise; the
decision is always one of these two labels and is determined by that single
comparison alone. -/
theorem predict_decision_single_comparison
    (model : PdfFeatures → ℚ) (defaultThr : ℚ) (includeHash : Bool)
    (modelHash : Option String) (req : ScoreRequest) :
    (predict model defaultThr includeHash modelHash req).decision =
      (if (predict model defaultThr includeHash modelHash req).predicted_peak_mb ≥
          (predict model defaultThr includeHash modelHash req).threshold_mb
       then "ROUTE_BIG_MEMORY" else "STANDARD_PATH")
    ∧ ((predict model defaultThr includeHash modelHash req).decision = "ROUTE_BIG_MEMORY"
       ∨ (predict model defaultThr includeHash modelHash req).decision = "STANDARD_PATH")
    ∧ (predict model defaultThr includeHash modelHash req).predicted_peak_mb =
        model req.features := by
  refine ⟨rfl, ?_, rfl⟩
  by_cases h : model req.features ≥ pyOrQ req.big_mem_threshold_mb defaultThr
  · left
    simp [predict, h]
  · right
    simp [predict, h]

/-- The example feature payload from the module docstring of
`src/sidecar/app.py`. -/
def exampleFeatures : PdfFeatures :=
  { size_mb := 21/10
    pages := 3
    image_page_ratio := 0
    dpi_estimate := 150
    avg_image_size_kb := 0
    fonts_embedded_pct := 1
    xref_error_count := 0
    ocr_required := 0
    producer := "UnitTest" }

/-- A `/predict` request that explicitly provides the threshold override
`big_mem_threshold_mb = 0.0`. -/
def zeroThresholdRequest : ScoreRequest :=
  { features := exampleFeatures
    big_mem_threshold_mb := some 0 }

/-- Claim C2 (code bug): with the override explicitly provided as `0.0`
(Python-falsy), `req.big_mem_threshold_mb or DEFAULT_THRESHOLD_MB`
evaluates to the default `3500.0`, so the provided value is neither used for
the decision nor echoed in `threshold_mb`, contradicting the endpoint's own
docstrings ("req.big_mem_threshold_mb if provided").  At predicted scalar
`100` the claim demands `ROUTE_BIG_MEMORY` (since `100 ≥ 0`) with
`threshold_mb = 0`, but the code answers `STANDARD_PATH` with
`threshold_mb = 3500`. -/
theorem predict_zero_override_uses_default :
    zeroThresholdRequest.big_mem_threshold_mb = some 0
    ∧ (predict (fun _ => 100) 3500 false none zeroThresholdRequest).threshold_mb = 3500
    ∧ (predict (fun _ => 100) 3500 false none zeroThresholdRequest).decision = "STANDARD_PATH"
    ∧ ((100 : ℚ) ≥ 0 ∧ (3500 : ℚ) ≠ 0) := by
  refine ⟨rfl, rfl, ?_, by norm_num, by norm_num⟩
  have h : ¬ ((100 : ℚ) ≥ pyOrQ (some 0) 3500) := by
    simp [pyOrQ]
    norm_num
  simp [predict, zeroThresholdRequest, h]

/-- Claim C3: the nine-field schema is the contract between all three
pieces: the extractor's JSON carries exactly the nine feature fields (plus
the provenance key `file`), the service's `PdfFeatures` declares exactly
these nine fields, and the trainer's `ColumnTransformer` consumes exactly
these nine as its feature columns. -/
theorem feature_schema_contract (path : String) (nbytes : ℕ) (doc : PdfDocument) :
    (pdfFeaturesJson path nbytes doc).map Prod.fst = "file" :: featureSchemaFields
    ∧ pdfFeaturesFieldNames = featureSchemaFields
    ∧ List.Perm (cat_features ++ num_features) featureSchemaFields := by
  refine ⟨rfl, rfl, ?_⟩
  have h : featureSchemaFields = num_features ++ cat_features := rfl
  rw [h]
  exact List.perm_append_comm

/-- Claim C4: for every input PDF, the extractor derives `pages` from the
page count, `size_mb` from the file size (MiB, rounded to three decimals),
and `producer` from the producer metadata, while every remaining schema
field is the fixed constant of the source (`image_page_ratio = 0.0`,
`dpi_estimate = 300`, `avg_image_size_kb = 0.0`, `fonts_embedded_pct = 0.5`,
`xref_error_count = 0`, `ocr_required = 0`), independent of the input. -/
theorem extractor_placeholder_fields (path : String) (nbytes : ℕ) (doc : PdfDocument) :
    (pdfFeaturesJson path nbytes doc).lookup "pages" = some (JVal.num (doc.pages : ℚ))
    ∧ (pdfFeaturesJson path nbytes doc).lookup "size_mb" =
        some (JVal.num (roundTo 1000 ((nbytes : ℚ) / (1024 * 1024))))
    ∧ (pdfFeaturesJson path nbytes doc).lookup "producer" =
        some (JVal.str (producerOf doc.metadata))
    ∧ (pdfFeaturesJson path nbytes doc).lookup "image_page_ratio" = some (JVal.num 0)
    ∧ (pdfFeaturesJson path nbytes doc).lookup "dpi_estimate" = some (JVal.num 300)
    ∧ (pdfFeaturesJson path nbytes doc).lookup "avg_image_size_kb" = some (JVal.num 0)
    ∧ (pdfFeaturesJson path nbytes doc).lookup "fonts_embedded_pct" = some (JVal.num (1/2))
    ∧ (pdfFeaturesJson path nbytes doc).lookup "xref_error_count" = some (JVal.num 0)
    ∧ (pdfFeaturesJson path nbytes doc).lookup "ocr_required" = some (JVal.num 0) := by
  refine ⟨rfl, rfl, rfl, rfl, rfl, rfl, rfl, rfl, rfl⟩

/-- A concrete numeric oracle for witnesses (its values never matter). -/
def oracleId : NumOracle := ⟨id, id, id, id, id⟩

/-- A concrete empty draw stream for witnesses. -/
def noDraws : ℕ → List Draw := fun _ => []

/-- Claim C5: `load_data` returns the frame parsed from the CSV when a path
is given and a file exists there, and otherwise (no path, or no file at the
path) the dataset synthesized from the seed.  The hypothesis `fs "" = none`
records that no file exists at the empty path (`os.path.exists("") = False`),
which makes Python's truthiness test `if path and ...` coincide with the
claim's "a path is given". -/
theorem load_data_csv_or_synthetic (o : NumOracle) (drawsOf : ℕ → List Draw)
    (fs : String → Option DataFrame) (seed : ℕ) (hempty : fs "" = none) :
    (∀ p df, fs p = some df → load_data o drawsOf fs (some p) seed = df)
    ∧ (∀ p, fs p = none →
        load_data o drawsOf fs (some p) seed = synthesize_data o (drawsOf seed))
    ∧ load_data o drawsOf fs none seed = synthesize_data o (drawsOf seed) := by
  refine ⟨?_, ?_, rfl⟩
  · intro p df h
    by_cases hp : p = ""
    · subst hp
      rw [hempty] at h
      exact absurd h (by simp)
    · simp [load_data, hp, h]
  · intro p h
    by_cases hp : p = ""
    · subst hp
      simp [load_data]
    · simp [load_data, hp, h]

/-- Witness for C5 at a concrete filesystem with no files: both the
missing-file path and the omitted path yield the synthetic dataset. -/
theorem load_data_csv_or_synthetic_witness :
    load_data oracleId noDraws (fun _ => none) (some "data.csv") 42
      = synthesize_data oracleId (noDraws 42)
    ∧ load_data oracleId noDraws (fun _ => none) none 42
      = synthesize_data oracleId (noDraws 42) :=
  ⟨(load_data_csv_or_synthetic oracleId noDraws (fun _ => none) 42 rfl).2.1 "data.csv" rfl,
   (load_data_csv_or_synthetic oracleId noDraws (fun _ => none) 42 rfl).2.2⟩

/-- Claim C9: when no file exists at the configured pipeline path, the
module-level load fails with the `FileNotFoundError` message naming the path
and the fix, so the service never starts serving `/predict` without a loaded
model; when the file exists, loading does not raise `FileNotFoundError`. -/
theorem startup_requires_model {M C : Type} (unpickle : C → M)
    (fs : String → Option C) (path : String) :
    (fs path = none →
      startService unpickle fs path = Except.error
        ("Model not found at \x27" ++ path ++
         "\x27. Train to sidecar/models/ or set PIPELINE_PATH to an absolute file path."))
    ∧ (∀ c, fs path = some c →
        startService unpickle fs path = Except.ok ⟨unpickle c⟩)
    ∧ ((∃ s, startService unpickle fs path = Except.ok s) ↔ (fs path).isSome = true) := by
  refine ⟨?_, ?_, ?_⟩
  · intro h
    simp [startService, loadPipe, h]
  · intro c h
    simp [startService, loadPipe, h]
  · constructor
    · rintro ⟨s, hs⟩
      cases hfp : fs path with
      | none =>
        rw [show startService unpickle fs path = Except.error
              ("Model not found at \x27" ++ path ++
               "\x27. Train to sidecar/models/ or set PIPELINE_PATH to an absolute file path.")
            from by simp [startService, loadPipe, hfp]] at hs
        exact absurd hs (by simp)
      | some c => simp
    · intro h
      cases hfp : fs path with
      | none => rw [hfp] at h; exact absurd h (by simp)
      | some c => exact ⟨⟨unpickle c⟩, by simp [startService, loadPipe, hfp]⟩

/-- Witness for C9: a filesystem without the artifact makes startup fail
with the operator message; a filesystem with it yields a loaded service. -/
theorem startup_requires_model_witness :
    startService (fun _ : Unit => ()) (fun _ => (none : Option Unit)) "sidecar/models/pipeline.pkl"
      = Except.error
          ("Model not found at \x27" ++ "sidecar/models/pipeline.pkl" ++
           "\x27. Train to sidecar/models/ or set PIPELINE_PATH to an absolute file path.")
    ∧ startService (fun _ : Unit => ()) (fun _ => some ()) "sidecar/models/pipeline.pkl"
      = Except.ok ⟨()⟩ :=
  ⟨(startup_requires_model (fun _ : Unit => ()) (fun _ => none) "sidecar/models/pipeline.pkl").1 rfl,
   (startup_requires_model (fun _ : Unit => ()) (fun _ => some ()) "sidecar/models/pipeline.pkl").2.1 () rfl⟩

/-- Claim C10: the extractor's `producer` field equals the document's
producer metadata string when metadata is present with a non-empty producer
value, and `"Unknown"` when the document has no metadata or the producer
entry is absent (`None`) or the empty string. -/
theorem producer_metadata_fallback (md : Option (List (String × String))) :
    (∀ m s, md = some m → metaProducer m = some s → s ≠ "" → producerOf md = s)
    ∧ (md = none → producerOf md = "Unknown")
    ∧ (∀ m, md = some m → (metaProducer m = none ∨ metaProducer m = some "") →
        producerOf md = "Unknown") := by
  refine ⟨?_, ?_, ?_⟩
  · intro m s hmd hp hs
    subst hmd
    have hm : m ≠ [] := by
      intro hnil
      subst hnil
      simp [metaProducer] at hp
    simp [producerOf, hm, hp, pyOrStr, hs]
  · intro h
    subst h
    rfl
  · intro m hmd hp
    subst hmd
    by_cases hm : m = []
    · subst hm
      rfl
    · rcases hp with h | h
      · simp [producerOf, hm, h, pyOrStr]
      · simp [producerOf, hm, h, pyOrStr]

/-- Witness for C10: a present non-empty producer is passed through; missing
metadata and an empty producer string both fall back to `"Unknown"`. -/
theorem producer_metadata_fallback_witness :
    producerOf (some [("/Producer", "LibreOffice 7.4")]) = "LibreOffice 7.4"
    ∧ producerOf none = "Unknown"
    ∧ producerOf (some [("/Producer", "")]) = "Unknown" :=
  ⟨(producer_metadata_fallback (some [("/Producer", "LibreOffice 7.4")])).1
      [("/Producer", "LibreOffice 7.4")] "LibreOffice 7.4" rfl rfl (by decide),
   (producer_metadata_fallback none).2.1 rfl,
   (producer_metadata_fallback (some [("/Producer", "")])).2.2
      [("/Producer", "")] rfl (Or.inr rfl)⟩

/-! ### Helper lemmas for the synthetic-data invariants -/

theorem roundTo10_clip_peak_bounds (x : ℚ) :
    150 ≤ roundTo 10 (npClip x 150 12000) ∧ roundTo 10 (npClip x 150 12000) ≤ 12000 := by
  have hc := npClip_bounds x (150 : ℚ) 12000 (by norm_num)
  have h1 : ((150 : ℤ) : ℚ) ≤ npClip x 150 12000 := by exact_mod_cast hc.1
  have h2 : npClip x 150 12000 ≤ ((12000 : ℤ) : ℚ) := by exact_mod_cast hc.2
  have hr := roundTo_bounds 10 (by norm_num) 150 12000 _ h1 h2
  exact ⟨by exact_mod_cast hr.1, by exact_mod_cast hr.2⟩

theorem roundTo1000_clip_unit_bounds (x : ℚ) :
    0 ≤ roundTo 1000 (npClip x 0 1) ∧ roundTo 1000 (npClip x 0 1) ≤ 1 := by
  have hc := npClip_bounds x (0 : ℚ) 1 (by norm_num)
  have h1 : ((0 : ℤ) : ℚ) ≤ npClip x 0 1 := by exact_mod_cast hc.1
  have h2 : npClip x 0 1 ≤ ((1 : ℤ) : ℚ) := by exact_mod_cast hc.2
  have hr := roundTo_bounds 1000 (by norm_num) 0 1 _ h1 h2
  exact ⟨by exact_mod_cast hr.1, by exact_mod_cast hr.2⟩

theorem getD_producersPool_mem (i : Fin 6) :
    producersPool.getD i.val "Unknown" ∈ producersPool := by
  fin_cases i <;> decide

/-- Row-level invariants of `synthRow`: every clipped/rounded field lands in
the range the clipping enforces, the flag fields keep their sampler
codomains, and the producer comes from the six-element pool. -/
theorem synthRow_invariants (o : NumOracle) (d : Draw) :
    (150 ≤ (synthRow o d).peak_mem_mb ∧ (synthRow o d).peak_mem_mb ≤ 12000)
    ∧ (1 ≤ (synthRow o d).features.pages ∧ (synthRow o d).features.pages ≤ 1500)
    ∧ (72 ≤ (synthRow o d).features.dpi_estimate ∧ (synthRow o d).features.dpi_estimate ≤ 600)
    ∧ (0 ≤ (synthRow o d).features.image_page_ratio ∧ (synthRow o d).features.image_page_ratio ≤ 1)
    ∧ (0 ≤ (synthRow o d).features.fonts_embedded_pct ∧ (synthRow o d).features.fonts_embedded_pct ≤ 1)
    ∧ ((synthRow o d).features.ocr_required = 0 ∨ (synthRow o d).features.ocr_required = 1)
    ∧ 0 ≤ (synthRow o d).features.xref_error_count
    ∧ (synthRow o d).features.producer ∈ producersPool := by
  refine ⟨⟨(roundTo10_clip_peak_bounds _).1, (roundTo10_clip_peak_bounds _).2⟩,
          ⟨?_, ?_⟩, ⟨?_, ?_⟩,
          ⟨(roundTo1000_clip_unit_bounds _).1, (roundTo1000_clip_unit_bounds _).2⟩,
          ⟨(roundTo1000_clip_unit_bounds _).1, (roundTo1000_clip_unit_bounds _).2⟩,
          ?_, ?_, ?_⟩
  · exact (npClip_bounds (pyRound d.pagesRaw) (1 : ℤ) 1500 (by norm_num)).1
  · exact (npClip_bounds (pyRound d.pagesRaw) (1 : ℤ) 1500 (by norm_num)).2
  · exact (npClip_bounds (pyRound d.dpiRaw) (72 : ℤ) 600 (by norm_num)).1
  · exact (npClip_bounds (pyRound d.dpiRaw) (72 : ℤ) 600 (by norm_num)).2
  · show ((d.ocrRaw.val : ℕ) : ℤ) = 0 ∨ ((d.ocrRaw.val : ℕ) : ℤ) = 1
    have h := d.ocrRaw.isLt
    omega
  · show (0 : ℤ) ≤ ((d.xrefRaw : ℕ) : ℤ)
    exact Int.natCast_nonneg _
  · exact getD_producersPool_mem d.prodIdx

/-- Claim C8: every row of a synthesized dataset satisfies the range
invariants: `peak_mem_mb ∈ [150, 12000]`, `pages ∈ [1, 1500]`,
`dpi_estimate ∈ [72, 600]`, `image_page_ratio` and `fonts_embedded_pct`
in `[0, 1]`, `ocr_required ∈ 0/1`, a non-negative integer
`xref_error_count`, and a producer from the six-string pool.  (Row count
and seed are abstracted into the raw draw stream `draws`.) -/
theorem synthesize_data_row_invariants (o : NumOracle) (draws : List Draw)
    (r : TrainRow) (hr : r ∈ (synthesize_data o draws).rows) :
    (150 ≤ r.peak_mem_mb ∧ r.peak_mem_mb ≤ 12000)
    ∧ (1 ≤ r.features.pages ∧ r.features.pages ≤ 1500)
    ∧ (72 ≤ r.features.dpi_estimate ∧ r.features.dpi_estimate ≤ 600)
    ∧ (0 ≤ r.features.image_page_ratio ∧ r.features.image_page_ratio ≤ 1)
    ∧ (0 ≤ r.features.fonts_embedded_pct ∧ r.features.fonts_embedded_pct ≤ 1)
    ∧ (r.features.ocr_required = 0 ∨ r.features.ocr_required = 1)
    ∧ 0 ≤ r.features.xref_error_count
    ∧ r.features.producer ∈ producersPool := by
  obtain ⟨d, _, rfl⟩ := List.mem_map.mp hr
  exact synthRow_invariants o d

/-- A concrete raw draw for the C8 witness. -/
def sampleDraw : Draw :=
  { sizeRaw := 0, pagesRaw := 0, betaRaw := 0, dpiRaw := 0, avgImgRaw := 0
    fontsRaw := 0, xrefRaw := 0, ocrRaw := 0, prodIdx := 0, noiseRaw := 0 }

/-- Witness for C8: a one-row synthesized dataset whose row satisfies all
the invariants. -/
theorem synthesize_data_row_invariants_witness :
    (synthRow oracleId sampleDraw ∈ (synthesize_data oracleId [sampleDraw]).rows)
    ∧ ((150 ≤ (synthRow oracleId sampleDraw).peak_mem_mb
        ∧ (synthRow oracleId sampleDraw).peak_mem_mb ≤ 12000)
    ∧ (1 ≤ (synthRow oracleId sampleDraw).features.pages
        ∧ (synthRow oracleId sampleDraw).features.pages ≤ 1500)
    ∧ (72 ≤ (synthRow oracleId sampleDraw).features.dpi_estimate
        ∧ (synthRow oracleId sampleDraw).features.dpi_estimate ≤ 600)
    ∧ (0 ≤ (synthRow oracleId sampleDraw).features.image_page_ratio
        ∧ (synthRow oracleId sampleDraw).features.image_page_ratio ≤ 1)
    ∧ (0 ≤ (synthRow oracleId sampleDraw).features.fonts_embedded_pct
        ∧ (synthRow oracleId sampleDraw).features.fonts_embedded_pct ≤ 1)
    ∧ ((synthRow oracleId sampleDraw).features.ocr_required = 0
        ∨ (synthRow oracleId sampleDraw).features.ocr_required = 1)
    ∧ 0 ≤ (synthRow oracleId sampleDraw).features.xref_error_count
    ∧ (synthRow oracleId sampleDraw).features.producer ∈ producersPool) := by
  have hmem : synthRow oracleId sampleDraw ∈ (synthesize_data oracleId [sampleDraw]).rows := by
    simp [synthesize_data]
  exact ⟨hmem, synthesize_data_row_invariants oracleId [sampleDraw] _ hmem⟩

/-- Claim C6: `train` splits the rows into a holdout test part of
`ceil(0.2 * n)` rows and a disjoint training part (together a permutation of
the input rows), fits the pipeline on the training part only, computes the
reported metrics exclusively from the holdout targets and the holdout
predictions, and reports `n_train`/`n_test` summing to the input row count.
The hypothesis states that sklearn's seeded `random_state` shuffle is a
permutation of its input. -/
theorem train_holdout_evaluation {M : Type} (fit : List (PdfFeatures × ℚ) → M)
    (pred : M → PdfFeatures → ℚ) (sqrtO : ℚ → ℚ)
    (shuffle : ℕ → List TrainRow → List TrainRow) (df : DataFrame) (seed : ℕ)
    (hsh : ∀ s l, List.Perm (shuffle s l) l) :
    let n := df.rows.length
    let nTest := (n + 4) / 5
    let teRows := (shuffle seed df.rows).take nTest
    let trRows := (shuffle seed df.rows).drop nTest
    let out := train fit pred sqrtO shuffle df seed
    List.Perm (teRows ++ trRows) df.rows
    ∧ out.1 = fit (trRows.map (fun r => (r.features, r.peak_mem_mb)))
    ∧ out.2 = holdoutMetrics sqrtO (teRows.map (fun r => r.peak_mem_mb))
        (teRows.map (fun r => pred out.1 r.features)) trRows.length teRows.length seed
    ∧ out.2.n_train + out.2.n_test = n
    ∧ out.2.n_test = (n + 4) / 5 := by
  intro n nTest teRows trRows out
  have hp : List.Perm (shuffle seed df.rows) df.rows := hsh seed df.rows
  have hlen : (shuffle seed df.rows).length = n := hp.length_eq
  have h1 : trRows.length = n - nTest := by
    simp only [trRows, List.length_drop, hlen]
  have h2 : teRows.length = min nTest n := by
    simp only [teRows, List.length_take, hlen]
  have hle : nTest ≤ n := by
    simp only [nTest, n]
    omega
  refine ⟨?_, rfl, rfl, ?_, ?_⟩
  · rw [List.take_append_drop]
    exact hp
  · show trRows.length + teRows.length = n
    rw [h1, h2]
    omega
  · show teRows.length = (n + 4) / 5
    rw [h2]
    exact min_eq_left hle

/-- The identity permutation as a concrete shuffle for witnesses. -/
def idShuffle : ℕ → List TrainRow → List TrainRow := fun _ l => l

/-- A concrete two-row dataset for the C6 witness. -/
def dfPair : DataFrame :=
  { columns :=
      ["size_mb", "pages", "image_page_ratio", "dpi_estimate", "avg_image_size_kb",
       "fonts_embedded_pct", "xref_error_count", "ocr_required", "producer",
       "peak_mem_mb"]
    rows :=
      [{ features := { size_mb := 1, pages := 10, image_page_ratio := 0,
                       dpi_estimate := 300, avg_image_size_kb := 0,
                       fonts_embedded_pct := 1, xref_error_count := 0,
                       ocr_required := 0, producer := "Adobe" },
         peak_mem_mb := 200 },
       { features := { size_mb := 2, pages := 20, image_page_ratio := 0,
                       dpi_estimate := 300, avg_image_size_kb := 0,
                       fonts_embedded_pct := 1, xref_error_count := 0,
                       ocr_required := 0, producer := "iText" },
         peak_mem_mb := 400 }] }

/-- Witness for C6 on a concrete two-row dataset with the identity shuffle:
the reported split sizes sum to the row count, the test size is
`ceil(0.2 * 2) = 1`, and test ++ train is a permutation of the input rows. -/
theorem train_holdout_evaluation_witness :
    (train (fun _ : List (PdfFeatures × ℚ) => ()) (fun _ _ => (0 : ℚ)) id idShuffle dfPair 7).2.n_train
      + (train (fun _ : List (PdfFeatures × ℚ) => ()) (fun _ _ => (0 : ℚ)) id idShuffle dfPair 7).2.n_test
      = dfPair.rows.length
    ∧ (train (fun _ : List (PdfFeatures × ℚ) => ()) (fun _ _ => (0 : ℚ)) id idShuffle dfPair 7).2.n_test
      = (dfPair.rows.length + 4) / 5
    ∧ List.Perm ((idShuffle 7 dfPair.rows).take ((dfPair.rows.length + 4) / 5)
        ++ (idShuffle 7 dfPair.rows).drop ((dfPair.rows.length + 4) / 5)) dfPair.rows := by
  have h := train_holdout_evaluation (M := Unit) (fun _ => ()) (fun _ _ => (0 : ℚ))
    id idShuffle dfPair 7 (fun _ _ => List.Perm.refl _)
  exact ⟨h.2.2.2.1, h.2.2.2.2, h.1⟩

/-- Claim C7 counterexample: at a concrete successful run, `main` writes
four files to the output directory, not just the three the claim allows —
`sample_data.csv` is also written. -/
theorem main_writes_counterexample :
    ((mainWrites (M := Unit) (fun _ => ()) (fun _ _ => (0 : ℚ)) id idShuffle oracleId noDraws
        (fun _ => none) id "2024-01-01T00:00:00Z" none 42).map Prod.fst
      ≠ ["pipeline.pkl", "metrics.json", "model_manifest.json"])
    ∧ ("sample_data.csv" ∈ (mainWrites (M := Unit) (fun _ => ()) (fun _ _ => (0 : ℚ)) id idShuffle
        oracleId noDraws (fun _ => none) id "2024-01-01T00:00:00Z" none 42).map Prod.fst)
    ∧ "sample_data.csv" ∉ (["pipeline.pkl", "metrics.json", "model_manifest.json"] : List String) := by
  have h : (mainWrites (M := Unit) (fun _ => ()) (fun _ _ => (0 : ℚ)) id idShuffle oracleId noDraws
      (fun _ => none) id "2024-01-01T00:00:00Z" none 42).map Prod.fst
      = ["pipeline.pkl", "metrics.json", "model_manifest.json", "sample_data.csv"] := rfl
  refine ⟨?_, ?_, by decide⟩
  · rw [h]
    decide
  · rw [h]
    decide

/-- Claim C7 (amended): every successful run of the training CLI writes
exactly four artifacts to the output directory — the fitted pipeline
(`pipeline.pkl`), the metrics (`metrics.json`), the manifest
(`model_manifest.json`) and a data sample (`sample_data.csv`) — where the
manifest holds the creation timestamp, a copy of the metrics, and the
ordered feature-column list (all dataset columns except the target
`peak_mem_mb`); for the default synthetic dataset those columns are exactly
the nine schema fields. -/
theorem main_writes_artifacts {M : Type} (fit : List (PdfFeatures × ℚ) → M)
    (pred : M → PdfFeatures → ℚ) (sqrtO : ℚ → ℚ)
    (shuffle : ℕ → List TrainRow → List TrainRow)
    (o : NumOracle) (drawsOf : ℕ → List Draw)
    (fs : String → Option DataFrame) (sampler : List TrainRow → List TrainRow)
    (now : String) (dataArg : Option String) (seed : ℕ) :
    mainWrites fit pred sqrtO shuffle o drawsOf fs sampler now dataArg seed =
      [("pipeline.pkl", Artifact.pipelinePkl
          (train fit pred sqrtO shuffle (load_data o drawsOf fs dataArg seed) seed).1),
       ("metrics.json", Artifact.metricsJson
          (train fit pred sqrtO shuffle (load_data o drawsOf fs dataArg seed) seed).2),
       ("model_manifest.json", Artifact.manifestJson
          { created_at := now
            metrics := (train fit pred sqrtO shuffle (load_data o drawsOf fs dataArg seed) seed).2
            features := (load_data o drawsOf fs dataArg seed).columns.filter
              (fun c => c ≠ "peak_mem_mb") }),
       ("sample_data.csv", Artifact.sampleCsv
          (sampler (load_data o drawsOf fs dataArg seed).rows))]
    ∧ (load_data o drawsOf fs none seed).columns.filter (fun c => c ≠ "peak_mem_mb")
        = featureSchemaFields := by
  exact ⟨rfl, rfl⟩
